import Mathlib

/-!
Verification of the Redis-backed distributed lease lock in `cache/locker.go`
(`RedisLock` with `Acquire`, `Release`, `KeepAlive`, `TryLock`).

The embedding models the single store key a `RedisLock` operates on
(`r.lockName`): every Lua script in the source touches exactly `KEYS[1]`.
A key state is `none` (absent, either never set or expired/deleted) or
`some (value, pttlMillis)` — the stored string together with the TTL in
milliseconds installed by the most recent `PEXPIRE`.  Go `time.Duration`
values are nanosecond integers, so `timeout` is an `Int` and
`timeout / time.Millisecond` is integer division by 1000000, exactly as in
the source.

Redis `EVAL` round trips can fail at the network level; each call site
takes a `comm : Option String` argument: `none` means the round trip
succeeded and the script ran, `some c` means the call returned error `c`
and (in this model) the store is unchanged.

The `KeepAlive` goroutine is modelled as a tick-indexed loop
(`keepAliveRun`): tick `i` runs the renewal script if the loop is still
running, and the loop transitions to `halted` exactly when the source's
`return` statement executes (which in the source happens only when `Eval`
errors).  `TryLock` is modelled with an explicit outcome record that also
records which cleanup actions the source performs (`keepAliveStarted`,
`keepAliveStopped`, `releaseCalled`), so that claims about the presence or
absence of those actions are statable.
-/

/-- The value of one Redis key: absent, or a stored string with the TTL in
milliseconds installed by the most recent `PEXPIRE`. -/
structure KeyState where
  entry : Option (String × Int)
deriving DecidableEq, Repr

/-- Go `time.Millisecond` as an integer number of nanoseconds. -/
def timeMillisecond : Int := 1000000

/-- The `RedisLock` struct: the fields that affect the lock's store
behaviour (`client` and `ctx` are I/O plumbing; `keepAlive` is the ticker
handle, modelled by the tick-indexed loop below). -/
structure RedisLock where
  lockName : String
  timeout : Int
deriving DecidableEq, Repr

/-- `ARGV[2]` of the acquire/renew scripts: `int64(r.timeout / time.Millisecond)`. -/
def RedisLock.ttlMillis (r : RedisLock) : Int := r.timeout / timeMillisecond

/-- The hardcoded `lockValue := "locked"` that `Acquire`, `Release` and
`KeepAlive` all pass as `ARGV[1]`. -/
def lockValue : String := "locked"

/-- The ticker interval set up by `KeepAlive`: `time.NewTicker(r.timeout / 2)`. -/
def keepAliveTickInterval (timeout : Int) : Int := timeout / 2

/-- The acquire Lua script, executed atomically by Redis:
`if SETNX(KEYS[1], ARGV[1]) == 1 then PEXPIRE(KEYS[1], ARGV[2]); return 1
else return 0 end`.  Returns the new key state and the script's result. -/
def acquireScript (arg1 : String) (arg2 : Int) (s : KeyState) : KeyState × Int :=
  match s.entry with
  | none => (⟨some (arg1, arg2)⟩, 1)
  | some _ => (s, 0)

/-- The release Lua script: `if GET(KEYS[1]) == ARGV[1] then return
DEL(KEYS[1]) else return 0 end`.  `GET` on an absent key yields nil, which
never equals a string argument. -/
def releaseScript (arg1 : String) (s : KeyState) : KeyState × Int :=
  match s.entry with
  | some (v, _) => if v = arg1 then (⟨none⟩, 1) else (s, 0)
  | none => (s, 0)

/-- The renewal Lua script run by `KeepAlive` each tick:
`if GET(KEYS[1]) == ARGV[1] then PEXPIRE(KEYS[1], ARGV[2]); return 1
else return 0 end`. -/
def renewScript (arg1 : String) (arg2 : Int) (s : KeyState) : KeyState × Int :=
  match s.entry with
  | some (v, _) => if v = arg1 then (⟨some (v, arg2)⟩, 1) else (s, 0)
  | none => (s, 0)

/-- The Go-level errors produced by `locker.go`, plus an opaque carrier for
whatever error the caller's `fn` returns. -/
inductive GoErr where
  | acquireFailed (cause : String)
  | releaseFailed (cause : String)
  | couldNotAcquire
  | fnFailure (msg : String)
deriving DecidableEq, Repr

/-- `RedisLock.Acquire`: evaluates the acquire script with `ARGV[1] =
"locked"`, `ARGV[2] = r.timeout / time.Millisecond`.  On an `Eval` error it
returns `(false, wrapped error)`; otherwise `(result == 1, nil)`. -/
def RedisLock.Acquire (r : RedisLock) (comm : Option String) (s : KeyState) :
    KeyState × Bool × Option GoErr :=
  match comm with
  | some c => (s, false, some (.acquireFailed c))
  | none =>
    let res := acquireScript lockValue r.ttlMillis s
    (res.1, res.2 == 1, none)

/-- `RedisLock.Release`: evaluates the release script with `ARGV[1] =
"locked"`; the script's 0/1 result is discarded, and the only error is an
`Eval` communication failure. -/
def RedisLock.Release (r : RedisLock) (comm : Option String) (s : KeyState) :
    KeyState × Option GoErr :=
  match comm with
  | some c => (s, some (.releaseFailed c))
  | none => ((releaseScript lockValue s).1, none)

/-- Whether the `KeepAlive` loop is still iterating or has executed its
`return`. -/
inductive KAStatus where
  | running
  | halted
deriving DecidableEq, Repr

/-- One iteration of `KeepAlive`'s `for { select { case <-ticker.C: ... } }`
body: run the renewal script; if `Eval` errored, print and `return`
(halting the loop); otherwise continue, discarding the script's 0/1
result. -/
def keepAliveTick (r : RedisLock) (comm : Option String) (s : KeyState) :
    KeyState × KAStatus :=
  match comm with
  | some _ => (s, .halted)
  | none => ((renewScript lockValue r.ttlMillis s).1, .running)

/-- The `KeepAlive` loop after `n` ticker firings; `comms i` is the network
outcome of the `Eval` at tick `i`.  Once halted the loop never runs
again. -/
def keepAliveRun (r : RedisLock) (comms : Nat → Option String) :
    Nat → KeyState → KeyState × KAStatus
  | 0, s => (s, .running)
  | n + 1, s =>
    match keepAliveRun r comms n s with
    | (s1, .running) => keepAliveTick r (comms n) s1
    | (s1, .halted) => (s1, .halted)

/-- The observable outcome of one `TryLock` call: the returned error, the
key state after all of `TryLock`'s own store operations, and which of the
lifecycle actions the source code performed on this path. -/
structure TryLockOutcome where
  result : Option GoErr
  store : KeyState
  keepAliveStarted : Bool
  keepAliveStopped : Bool
  releaseCalled : Bool
deriving DecidableEq, Repr

/-- `RedisLock.TryLock`: `Acquire`; on error return it; if not locked return
`errors.New("could not acquire lock")`; otherwise `go r.KeepAlive()`,
run `fn`, and via `defer` call `Release`, ignoring its error, then return
`fn`'s result.  `env` is the key-state transformation that happens while
`fn` runs (renewal ticks, TTL expiry, other processes); `fnRes` is `fn`'s
returned error.  The source contains no statement that stops the
`KeepAlive` goroutine or its ticker, so `keepAliveStopped` is `false` on
every path. -/
def RedisLock.TryLock (r : RedisLock) (acqComm relComm : Option String)
    (env : KeyState → KeyState) (fnRes : Option GoErr) (s : KeyState) :
    TryLockOutcome :=
  let acq := r.Acquire acqComm s
  match acq.2.2 with
  | some e => ⟨some e, acq.1, false, false, false⟩
  | none =>
    if acq.2.1 then
      let s2 := env acq.1
      let rel := r.Release relComm s2
      ⟨fnRes, rel.1, true, false, true⟩
    else
      ⟨some .couldNotAcquire, acq.1, false, false, false⟩

/-- A sample handle: lock name `job:42`, lease 2s (in nanoseconds). -/
def handleA : RedisLock := ⟨"job:42", 2000000000⟩

/-- A second, distinct acquisition attempt on the same lock name. -/
def handleB : RedisLock := ⟨"job:42", 3000000000⟩

/-!
Two-process interleaving model for the mutual-exclusion claim.  Each
process runs `TryLock` on the same key: it attempts acquisition once
(either the script runs, or the `Eval` round trip fails and `TryLock`
returns the acquire error), then — only if the script returned 1 — is in
its `fn` (state `running`, during which its `KeepAlive` ticks may fire),
and finally releases and returns (state `done`).  A process whose
acquisition did not succeed is in state `failed`: per `TryLock`'s code it
has returned `could not acquire lock` without running `fn`.  The model
covers the lock protocol's own steps; spontaneous TTL expiry of the key is
not an event here (loss of the lease during execution is analysed with
`keepAliveTick` separately).
-/

/-- The phase a `TryLock` call is in. -/
inductive PState where
  | idle
  | failed
  | running
  | done
deriving DecidableEq, Repr

/-- Joint state: the shared key and the two callers' phases. -/
structure Sys where
  store : KeyState
  p1 : PState
  p2 : PState
deriving DecidableEq, Repr

/-- Interleaved steps of two `TryLock` calls (handles `r1`, `r2`, same lock
name, hence the same key).  Each constructor is one atomic store script
(or a failed round trip) executed by one process, as issued by the source
code of `Acquire` / `KeepAlive` / `Release`. -/
inductive LockStep (r1 r2 : RedisLock) : Sys → Sys → Prop where
  | acq1 (s : Sys) (h : s.p1 = .idle) :
      LockStep r1 r2 s
        ⟨(acquireScript lockValue r1.ttlMillis s.store).1,
         if (acquireScript lockValue r1.ttlMillis s.store).2 == 1 then .running else .failed,
         s.p2⟩
  | acqErr1 (s : Sys) (h : s.p1 = .idle) :
      LockStep r1 r2 s ⟨s.store, .failed, s.p2⟩
  | tick1 (s : Sys) (h : s.p1 = .running) :
      LockStep r1 r2 s ⟨(renewScript lockValue r1.ttlMillis s.store).1, s.p1, s.p2⟩
  | fin1 (s : Sys) (h : s.p1 = .running) :
      LockStep r1 r2 s ⟨(releaseScript lockValue s.store).1, .done, s.p2⟩
  | acq2 (s : Sys) (h : s.p2 = .idle) :
      LockStep r1 r2 s
        ⟨(acquireScript lockValue r2.ttlMillis s.store).1,
         s.p1,
         if (acquireScript lockValue r2.ttlMillis s.store).2 == 1 then .running else .failed⟩
  | acqErr2 (s : Sys) (h : s.p2 = .idle) :
      LockStep r1 r2 s ⟨s.store, s.p1, .failed⟩
  | tick2 (s : Sys) (h : s.p2 = .running) :
      LockStep r1 r2 s ⟨(renewScript lockValue r2.ttlMillis s.store).1, s.p1, s.p2⟩
  | fin2 (s : Sys) (h : s.p2 = .running) :
      LockStep r1 r2 s ⟨(releaseScript lockValue s.store).1, s.p1, .done⟩

/-- Reachability under interleaved steps. -/
def Reaches (r1 r2 : RedisLock) : Sys → Sys → Prop :=
  Relation.ReflTransGen (LockStep r1 r2)

/-- Initial state: no one holds the key, both callers about to start. -/
def initSys : Sys := ⟨⟨none⟩, .idle, .idle⟩

/-- Inductive invariant: a running process implies the key is present, and
the two processes are never both running. -/
def MutexInv (s : Sys) : Prop :=
  (s.p1 = .running → s.store.entry ≠ none) ∧
  (s.p2 = .running → s.store.entry ≠ none) ∧
  ¬(s.p1 = .running ∧ s.p2 = .running)

/-- A `LockStep` preserves the mutual-exclusion invariant. -/
theorem lockStep_preserves_mutexInv (r1 r2 : RedisLock) (a b : Sys)
    (hstep : LockStep r1 r2 a b) (hinv : MutexInv a) : MutexInv b := by
  obtain ⟨h1, h2, h12⟩ := hinv
  cases hstep with
  | acq1 h =>
    rcases hs : a.store.entry with _ | ⟨v, t⟩
    · have hp2 : a.p2 ≠ .running := fun hr => (h2 hr) hs
      simp [MutexInv, acquireScript, hs, hp2]
    · simp [MutexInv, acquireScript, hs]
  | acqErr1 h =>
    exact ⟨by simp, h2, by simp⟩
  | tick1 h =>
    rcases hs : a.store.entry with _ | ⟨v, t⟩
    · exact absurd hs (h1 h)
    · by_cases hv : v = lockValue <;>
        simp [MutexInv, renewScript, hs, hv] <;>
        exact fun hr1 hr2 => h12 ⟨hr1, hr2⟩
  | fin1 h =>
    have hp2 : a.p2 ≠ .running := fun hr => h12 ⟨h, hr⟩
    exact ⟨by simp, fun hr => absurd hr hp2, by simp⟩
  | acq2 h =>
    rcases hs : a.store.entry with _ | ⟨v, t⟩
    · have hp1 : a.p1 ≠ .running := fun hr => (h1 hr) hs
      simp [MutexInv, acquireScript, hs, hp1]
    · simp [MutexInv, acquireScript, hs]
  | acqErr2 h =>
    exact ⟨h1, by simp, by simp⟩
  | tick2 h =>
    rcases hs : a.store.entry with _ | ⟨v, t⟩
    · exact absurd hs (h2 h)
    · by_cases hv : v = lockValue <;>
        simp [MutexInv, renewScript, hs, hv] <;>
        exact fun hr1 hr2 => h12 ⟨hr1, hr2⟩
  | fin2 h =>
    have hp1 : a.p1 ≠ .running := fun hr => h12 ⟨hr, h⟩
    exact ⟨fun hr => absurd hr hp1, by simp, by simp⟩

/-- Every state reachable from `initSys` satisfies the invariant. -/
theorem reaches_mutexInv (r1 r2 : RedisLock) (s : Sys)
    (h : Reaches r1 r2 initSys s) : MutexInv s := by
  induction h with
  | refl => exact ⟨by simp [initSys], by simp [initSys], by simp [initSys]⟩
  | tail hab hstep ih => exact lockStep_preserves_mutexInv r1 r2 _ _ hstep ih

/-- C1: the claim says every acquisition attempt writes a freshly generated,
per-attempt-unique holder token.  In the source, `Acquire` always writes the
hardcoded constant `lockValue = "locked"` (the same constant that `KeepAlive`
and `Release` pass to their scripts): two distinct acquisition attempts
(`handleA`, `handleB`) on fresh keys write identical values, so the
distinctness invariant fails. -/
theorem c1_acquisitions_share_value :
    (handleA.Acquire none ⟨none⟩).1.entry.map Prod.fst =
      (handleB.Acquire none ⟨none⟩).1.entry.map Prod.fst ∧
    (handleA.Acquire none ⟨none⟩).1.entry.map Prod.fst = some "locked" ∧
    lockValue = "locked" := by
  refine ⟨rfl, rfl, rfl⟩

/-- C2: for two interleaved `TryLock` calls on the same key, no reachable
state has both callers inside their `fn` (state `running`); a caller whose
acquisition script returned 0 is in state `failed`, i.e. its `TryLock`
returned the lock-unavailable error without running `fn`.  The model covers
the protocol's own atomic store steps (acquire script, renewal ticks,
release script, failed acquire round trip); spontaneous TTL expiry is not
an event of this model. -/
theorem c2_mutual_exclusion (r1 r2 : RedisLock) (s : Sys)
    (h : Reaches r1 r2 initSys s) :
    ¬(s.p1 = .running ∧ s.p2 = .running) :=
  (reaches_mutexInv r1 r2 s h).2.2

/-- Witness for C2 at a concrete reachable state: process 1 has run the
acquire script from the initial state and is running; process 2 is not. -/
theorem c2_mutual_exclusion_witness :
    Reaches handleA handleB initSys ⟨⟨some (lockValue, 2000)⟩, .running, .idle⟩ ∧
    ¬((Sys.mk ⟨some (lockValue, 2000)⟩ .running .idle).p1 = .running ∧
      (Sys.mk ⟨some (lockValue, 2000)⟩ .running .idle).p2 = .running) :=
  ⟨Relation.ReflTransGen.single (LockStep.acq1 initSys rfl),
   c2_mutual_exclusion handleA handleB _
     (Relation.ReflTransGen.single (LockStep.acq1 initSys rfl))⟩

/-- C3: `Acquire` sets the key (with value and TTL together, in the one
atomic script) exactly when the key is absent, returning `(true, nil)`;
when the key holds a value it changes nothing and returns `(false, nil)`;
and a store round-trip failure returns `(false, error)` as the only error
case. -/
theorem c3_acquire_semantics (r : RedisLock) (s : KeyState) :
    (s.entry = none →
      r.Acquire none s = (⟨some (lockValue, r.ttlMillis)⟩, true, none)) ∧
    (∀ e, s.entry = some e → r.Acquire none s = (s, false, none)) ∧
    (∀ c, r.Acquire (some c) s = (s, false, some (.acquireFailed c))) := by
  refine ⟨fun h => ?_, fun e h => ?_, fun c => rfl⟩
  · simp [RedisLock.Acquire, acquireScript, h]
  · simp [RedisLock.Acquire, acquireScript, h]

/-- Witness for C3 on a fresh key. -/
theorem c3_acquire_semantics_witness :
    (KeyState.mk none).entry = none ∧
    handleA.Acquire none ⟨none⟩ =
      (⟨some (lockValue, handleA.ttlMillis)⟩, true, none) :=
  ⟨rfl, (c3_acquire_semantics handleA ⟨none⟩).1 rfl⟩

/-- C4: the claim says the renewal task is positively stopped before
cleanup and never left detached.  In the source, `TryLock` starts
`KeepAlive` with `go` and contains no stop signal of any kind (the ticker
is never stopped and no cancellation is ever delivered), and the
`KeepAlive` loop itself runs forever as long as its `Eval` round trips
succeed: after any number of ticks it is still running, including after
`TryLock` has returned and released the key. -/
theorem c4_keepalive_never_stopped :
    (∀ (n : Nat) (s : KeyState),
      (keepAliveRun handleA (fun _ => none) n s).2 = .running) ∧
    (handleA.TryLock none none (fun k => k) none ⟨none⟩).keepAliveStarted = true ∧
    (handleA.TryLock none none (fun k => k) none ⟨none⟩).keepAliveStopped = false := by
  refine ⟨?_, rfl, rfl⟩
  intro n
  induction n with
  | zero => intro s; rfl
  | succ k ih =>
    intro s
    have h := ih s
    unfold keepAliveRun
    rcases hk : keepAliveRun handleA (fun _ => none) k s with ⟨s1, st⟩
    rw [hk] at h
    cases st with
    | running => simp [keepAliveTick]
    | halted => simp at h

/-- C5: the claim says lease loss detected during renewal is surfaced to
the caller of the guarded execution.  In the source, the renewal script's
0 result (value no longer present/matching) is discarded — the tick leaves
the loop running with no signal — and `TryLock`'s return value is exactly
`fn`'s result even when the key was lost while `fn` ran, so the caller
never learns of the loss. -/
theorem c5_lease_loss_silently_swallowed :
    keepAliveTick handleA none ⟨none⟩ = (⟨none⟩, .running) ∧
    (handleA.TryLock none none (fun _ => ⟨none⟩) none ⟨none⟩).result = none := by
  refine ⟨rfl, rfl⟩

/-- C6: the claim says a store-communication failure during one renewal
attempt does not stop the renewal activity.  In the source, `KeepAlive`
executes `return` on the first `Eval` error: a single failed round trip at
tick 0 halts the loop, and it stays halted at every later tick even though
all later round trips would succeed. -/
theorem c6_single_failure_halts_keepalive :
    keepAliveRun handleA (fun i => if i == 0 then some "network blip" else none) 1
        ⟨some (lockValue, 2000)⟩ = (⟨some (lockValue, 2000)⟩, .halted) ∧
    keepAliveRun handleA (fun i => if i == 0 then some "network blip" else none) 4
        ⟨some (lockValue, 2000)⟩ = (⟨some (lockValue, 2000)⟩, .halted) := by
  refine ⟨rfl, rfl⟩

/-- C7: the script-level parts of the claim hold — releasing an absent
(already released or expired) key is a no-op with no error, and a key
whose stored value differs from the passed value is left untouched — but
the final part fails: because every handle passes the same constant
`"locked"`, `handleA.Release` deletes the key that holder `handleB`'s
acquisition wrote (same lock name, same key), i.e. Release does delete a
key currently holding a different holder's value. -/
theorem c7_release_deletes_other_holder :
    handleA.Release none ⟨none⟩ = (⟨none⟩, none) ∧
    handleA.Release none ⟨some ("someone-else", 500)⟩ =
      (⟨some ("someone-else", 500)⟩, none) ∧
    (handleB.Acquire none ⟨none⟩).1 = ⟨some (lockValue, 3000)⟩ ∧
    handleA.Release none ⟨some (lockValue, 3000)⟩ = (⟨none⟩, none) := by
  refine ⟨rfl, by decide, rfl, rfl⟩

/-- C8: when acquisition succeeds, `TryLock` returns exactly `fn`'s result
(`fn`'s error, or nil), for every release outcome `relComm` — the deferred
`Release`'s error is discarded, so a cleanup failure never replaces or
joins `fn`'s result. -/
theorem c8_trylock_returns_fn_result (r : RedisLock) (relComm : Option String)
    (env : KeyState → KeyState) (fnRes : Option GoErr) (s : KeyState)
    (h : s.entry = none) :
    (r.TryLock none relComm env fnRes s).result = fnRes := by
  simp [RedisLock.TryLock, RedisLock.Acquire, acquireScript, h]

/-- Witness for C8: `fn` fails and the release round trip also fails; the
returned error is exactly `fn`'s. -/
theorem c8_trylock_returns_fn_result_witness :
    (KeyState.mk none).entry = none ∧
    (handleA.TryLock none (some "network down") (fun k => k)
        (some (.fnFailure "boom")) ⟨none⟩).result = some (.fnFailure "boom") :=
  ⟨rfl, c8_trylock_returns_fn_result handleA (some "network down") (fun k => k)
    (some (.fnFailure "boom")) ⟨none⟩ rfl⟩

/-- C9: for every positive configured lease duration, the ticker interval
`KeepAlive` installs is `timeout / 2` (Go integer division on the
nanosecond `Duration`) and is strictly less than the lease duration. -/
theorem c9_tick_interval_half (r : RedisLock) (h : 0 < r.timeout) :
    keepAliveTickInterval r.timeout = r.timeout / 2 ∧
    keepAliveTickInterval r.timeout < r.timeout := by
  refine ⟨rfl, ?_⟩
  unfold keepAliveTickInterval
  omega

/-- Witness for C9 at the 2-second sample handle. -/
theorem c9_tick_interval_half_witness :
    0 < handleA.timeout ∧
    (keepAliveTickInterval handleA.timeout = handleA.timeout / 2 ∧
     keepAliveTickInterval handleA.timeout < handleA.timeout) :=
  ⟨by decide, c9_tick_interval_half handleA (by decide)⟩

/-- C10: on the failed-acquisition paths (`Acquire` round-trip error, or
key already held), `TryLock` returns the corresponding error immediately,
leaves the store exactly as it was, does not start the renewal goroutine,
and does not call `Release`. -/
theorem c10_failed_acquire_no_mutation (r : RedisLock) (relComm : Option String)
    (env : KeyState → KeyState) (fnRes : Option GoErr) (s : KeyState) :
    (∀ c, r.TryLock (some c) relComm env fnRes s =
        ⟨some (.acquireFailed c), s, false, false, false⟩) ∧
    (∀ e, s.entry = some e → r.TryLock none relComm env fnRes s =
        ⟨some .couldNotAcquire, s, false, false, false⟩) := by
  refine ⟨fun c => rfl, fun e h => ?_⟩
  simp [RedisLock.TryLock, RedisLock.Acquire, acquireScript, h]

/-- Witness for C10: another holder's key is in place; `TryLock` fails
without mutating anything. -/
theorem c10_failed_acquire_no_mutation_witness :
    (KeyState.mk (some (lockValue, 3000))).entry = some (lockValue, 3000) ∧
    handleA.TryLock none none (fun k => k) none ⟨some (lockValue, 3000)⟩ =
      ⟨some .couldNotAcquire, ⟨some (lockValue, 3000)⟩, false, false, false⟩ :=
  ⟨rfl, (c10_failed_acquire_no_mutation handleA none (fun k => k) none
    ⟨some (lockValue, 3000)⟩).2 (lockValue, 3000) rfl⟩
